import Mathlib

/-!
# Verification of the product-aggregation pipeline of `api_server.py`

This file gives a shallow embedding, in Lean 4, of the aggregation,
filtering and scrape-orchestration logic of `src/api_server.py`
(a FastAPI server that merges JSON "parse result" artifacts produced by
external scraping/parsing processes), and proves or refutes the frozen
claims about it.

Modelling conventions:
* The `outputs` directory is a value: a list of `FileEntry`, each carrying
  the file name, its modification time, and the result of `json.load` on
  its contents (`ArtifactContent`): a single JSON object (`single`), a
  JSON list of objects (`batch`), or an unreadable/undecodable file
  (`malformed`, i.e. `json.load` raised).
* Products are opaque payloads: the server never inspects a product's
  fields, it only concatenates product lists and takes their lengths, so
  every definition is polymorphic in the product type `α`.
* A `ParseResult` record is a JSON object read with `dict.get` and a
  default, hence its fields are `Option`s; `getD` models the defaults
  used at each call site (`''`, `'unknown'`, `'Unknown'`, `0`, `[]`).
* Python `dict`s built by insertion are modelled as insertion-ordered
  association lists, matching CPython's ordered-dict semantics.
* `Path.glob(pattern)` is modelled as filtering the directory listing
  with a matcher for patterns made of literal characters and `*`.
-/

namespace ApiServer

/-- A product record.  The aggregation code of `api_server.py` treats
products as opaque JSON values (it never reads `name`, `price`, ...), so
products are modelled as an arbitrary type `α` throughout. -/
structure ParseResult (α : Type) where
  /-- the `site` field; `none` models an absent key -/
  site : Option String
  /-- the `location` field; `none` models an absent key -/
  location : Option String
  /-- the `products` field; `dict.get('products', [])` makes an absent
  key indistinguishable from an empty list, so a plain list suffices -/
  products : List α
  /-- the `totalProducts` field; `none` models an absent key -/
  totalProducts : Option Int
  deriving Repr, DecidableEq

/-- Outcome of `json.load` on one artifact file: a single JSON object,
a JSON list of objects, or an exception (unreadable / malformed JSON). -/
inductive ArtifactContent (α : Type) where
  | single (r : ParseResult α)
  | batch (rs : List (ParseResult α))
  | malformed
  deriving Repr, DecidableEq

/-- One file of the `outputs` directory: name, `os.path.getmtime`
modification time, and the content `json.load` would produce. -/
structure FileEntry (α : Type) where
  name : String
  mtime : Nat
  content : ArtifactContent α
  deriving Repr, DecidableEq

/-- Glob-pattern matching for the patterns `api_server.py` uses: a
pattern is a string of literal characters and `*` wildcards; `*`
matches any (possibly empty) sequence of characters, realised by
matching the rest of the pattern against every suffix of the name. -/
def globMatch : List Char → List Char → Bool
  | [], cs => cs.isEmpty
  | '*' :: ps, cs => cs.tails.any (fun t => globMatch ps t)
  | p :: ps, cs =>
    match cs with
    | [] => false
    | c :: cs' => p = c && globMatch ps cs'

/-- Model of `OUTPUTS_DIR.glob(pat)`: the files of the directory listing whose
name matches the pattern, in listing order. -/
def globFiles (pat : String) (dir : List (FileEntry α)) : List (FileEntry α) :=
  dir.filter (fun e => globMatch pat.toList e.name.toList)

/-- The `SUPPORTED_SITES` list of `api_server.py`. -/
def SUPPORTED_SITES : List String :=
  ["dmart", "jiomart", "naturesbasket", "zepto", "swiggy"]

/-- Flattening one loaded artifact into a sequence of records:
`data if isinstance(data, list) else [data]`, and a file whose read
raised is skipped (`except: continue`), contributing nothing. -/
def flattenContent : ArtifactContent α → List (ParseResult α)
  | .single r => [r]
  | .batch rs => rs
  | .malformed => []

/-- Python `str.lower()`.  Every string the server lower-cases (site
identifiers, location names) is ASCII, where Python's `lower()` agrees
with per-character ASCII lower-casing. -/
def strLower (s : String) : String := ⟨s.data.map Char.toLower⟩

/-- Is `needle` a contiguous sublist of `hay`? -/
def charsContain (needle hay : List Char) : Bool :=
  needle.isPrefixOf hay ||
    match hay with
    | [] => false
    | _ :: t => charsContain needle t

/-- Python `needle in hay` on strings: substring containment. -/
def strContains (hay needle : String) : Bool :=
  charsContain needle.toList hay.toList

/-- The HTTP error responses raised by the handlers. -/
inductive HTTPError where
  | badRequest (detail : String)
  | internalError (detail : String)
  deriving Repr, DecidableEq

/-! ## `GET /api/products` (`get_all_products`) -/

/-- Model of `result.get('site', 'unknown')`. -/
def rawSite (r : ParseResult α) : String := r.site.getD "unknown"

/-- Model of `result.get('location', 'Unknown')`. -/
def rawLoc (r : ParseResult α) : String := r.location.getD "Unknown"

/-- One value of the `sites` mapping of `get_all_products`:
`{'location': ..., 'products': [...], 'total': n}`. -/
structure SiteGroup (α : Type) where
  location : String
  products : List α
  total : Nat
  deriving Repr, DecidableEq

/-- The loop body of `get_all_products` on the `sites` dict, for one
record with site key `site`, first-seen location `loc` and product list
`ps`: if `site` is absent, a fresh entry is created at the end of the
(insertion-ordered) dict with `location = loc`; in both cases `ps` is
appended to the entry's products and its total grows by `len(ps)`. -/
def insertGroup (site loc : String) (ps : List α) :
    List (String × SiteGroup α) → List (String × SiteGroup α)
  | [] => [(site, ⟨loc, ps, ps.length⟩)]
  | (k, g) :: rest =>
    if k = site then
      (k, ⟨g.location, g.products ++ ps, g.total + ps.length⟩) :: rest
    else
      (k, g) :: insertGroup site loc ps rest

/-- The `sites` dict built by the single aggregation pass of
`get_all_products` over the flattened records. -/
def groupBySite (results : List (ParseResult α)) : List (String × SiteGroup α) :=
  results.foldl (fun acc r => insertGroup (rawSite r) (rawLoc r) r.products acc) []

/-- Lookup in an insertion-ordered dict (first entry with the key). -/
def lookupSite (s : String) : List (String × SiteGroup α) → Option (SiteGroup α)
  | [] => none
  | (k, g) :: rest => if k = s then some g else lookupSite s rest

/-- All records loaded by `get_all_products`: every file of the outputs
directory matching `*-parsed.json`, flattened, a file whose read raised
being skipped. -/
def loadAll (dir : List (FileEntry α)) : List (ParseResult α) :=
  (globFiles "*-parsed.json" dir).flatMap (fun e => flattenContent e.content)

/-- Response of `GET /api/products`: either the early
`"No parsed data found"` return (no file matched the glob), or the
success payload. -/
inductive AllProductsResponse (α : Type) where
  | noData
  | success (sites : List (String × SiteGroup α)) (all_products : List α)
      (total_products : Nat) (total_sites : Nat)
  deriving Repr, DecidableEq

/-- Handler `get_all_products`: glob `*-parsed.json`, load every file skipping
unreadable ones, then aggregate in one pass. -/
def get_all_products (dir : List (FileEntry α)) : AllProductsResponse α :=
  if (globFiles "*-parsed.json" dir).isEmpty then
    .noData
  else
    let results := loadAll dir
    let sites := groupBySite results
    let allProducts := results.flatMap (fun r => r.products)
    .success sites allProducts allProducts.length sites.length

/-- The product list of an `AllProductsResponse` (the `products` field
of the `noData` shape is the empty list). -/
def allProductsOf : AllProductsResponse α → List α
  | .noData => []
  | .success _ ps _ _ => ps

/-- The `total_products` of an `AllProductsResponse` (`total` is `0` in
the `noData` shape). -/
def totalProductsOf : AllProductsResponse α → Nat
  | .noData => 0
  | .success _ _ n _ => n

/-- The `sites` mapping of an `AllProductsResponse`. -/
def sitesOf : AllProductsResponse α → List (String × SiteGroup α)
  | .noData => []
  | .success s _ _ _ => s

/-! ## `GET /api/products/{site}` (`get_products_by_site`) -/

/-- The duplicated discovery step shared by `get_products_by_site` and
`get_products_by_site_and_location` (with `site` already lower-cased):
`glob(f"{site}*-parsed.json")` extended with
`glob(f"*{site}*-parsed.json")`.  A file matching both patterns occurs
twice in the returned list. -/
def siteGlobFiles (site : String) (dir : List (FileEntry α)) : List (FileEntry α) :=
  globFiles (site ++ "*-parsed.json") dir ++ globFiles ("*" ++ site ++ "*-parsed.json") dir

/-- The 400 detail string for an unsupported site. -/
def unsupportedDetail (site : String) : String :=
  "Unsupported site: " ++ site ++ ". Supported sites: " ++
    String.intercalate ", " SUPPORTED_SITES

/-- Response of `GET /api/products/{site}`: the
`"No data found for site"` shape or the success payload with the
per-location dict. -/
inductive SiteResponse (α : Type) where
  | noData (site : String)
  | success (site : String) (locations : List (String × List α))
      (products : List α) (total_products : Nat) (total_locations : Nat)
  deriving Repr, DecidableEq

/-- Loop body on the `locations` dict of `get_products_by_site`. -/
def insertLoc (loc : String) (ps : List α) :
    List (String × List α) → List (String × List α)
  | [] => [(loc, ps)]
  | (k, v) :: rest =>
    if k = loc then (k, v ++ ps) :: rest else (k, v) :: insertLoc loc ps rest

/-- Records kept by `get_products_by_site` (with `site` lower-cased):
each discovered file is flattened and filtered to the records whose
lower-cased `site` field equals the query site. -/
def siteFilteredResults (site : String) (dir : List (FileEntry α)) :
    List (ParseResult α) :=
  (siteGlobFiles site dir).flatMap
    (fun e => (flattenContent e.content).filter
      (fun r => strLower (r.site.getD "") = site))

/-- Handler `get_products_by_site`: lower-case and validate the site, discover
files with the two glob patterns, filter records to the site, aggregate
per location. -/
def get_products_by_site (site : String) (dir : List (FileEntry α)) :
    Except HTTPError (SiteResponse α) :=
  let s := strLower site
  if s ∈ SUPPORTED_SITES then
    if (siteGlobFiles s dir).isEmpty then
      .ok (.noData s)
    else
      let results := siteFilteredResults s dir
      if results.isEmpty then
        .ok (.noData s)
      else
        let locations :=
          results.foldl (fun acc r => insertLoc (rawLoc r) r.products acc) []
        let allProducts := results.flatMap (fun r => r.products)
        .ok (.success s locations allProducts allProducts.length locations.length)
  else
    .error (.badRequest (unsupportedDetail s))

/-! ## `GET /api/products/{site}/{location}`
(`get_products_by_site_and_location`) -/

/-- Response of `GET /api/products/{site}/{location}`. -/
inductive SiteLocResponse (α : Type) where
  | noData (site location : String)
  | success (site location : String) (products : List α) (total_products : Nat)
  deriving Repr, DecidableEq

/-- The `matching_results` list of `get_products_by_site_and_location` (with the
query site and location already lower-cased): records of the discovered
files whose lower-cased `site` equals the query site and whose
lower-cased `location` contains the query location as a substring. -/
def matchingResults (site loc : String) (dir : List (FileEntry α)) :
    List (ParseResult α) :=
  (siteGlobFiles site dir).flatMap
    (fun e => (flattenContent e.content).filter
      (fun r => strLower (r.site.getD "") = site &&
        strContains (strLower (r.location.getD "")) loc))

/-- Handler `get_products_by_site_and_location`. -/
def get_products_by_site_and_location (site loc : String)
    (dir : List (FileEntry α)) : Except HTTPError (SiteLocResponse α) :=
  let s := strLower site
  let l := strLower loc
  if s ∈ SUPPORTED_SITES then
    if (siteGlobFiles s dir).isEmpty then
      .ok (.noData s l)
    else
      let matching := matchingResults s l dir
      if matching.isEmpty then
        .ok (.noData s l)
      else
        let allProducts := matching.flatMap (fun r => r.products)
        .ok (.success s l allProducts allProducts.length)
  else
    .error (.badRequest (unsupportedDetail s))

/-! ## `POST /api/scrape` (`scrape_products`)

The handler's interactions with the outside world (the orchestrator
subprocess, the `output` HTML directory, the parser subprocess, the
state of the `outputs` directory once the settling sleeps are over) are
captured as an explicit environment, so the handler becomes a pure
function of that environment. -/

/-- Environment of one `scrape_products` request. -/
structure ScrapeEnv (α : Type) where
  /-- return code of `location-selector-orchestrator.js` -/
  scrapeExit : Int
  /-- its captured stderr, decoded (`"Unknown error"` when empty) -/
  scrapeStderr : String
  /-- `output/*.html` after the scrape (empty list when the `output`
  directory does not exist) -/
  htmlFiles : List String
  /-- return code of `unified-html-parser.js`; captured by the handler
  but never inspected -/
  parseExit : Int
  /-- state of the `outputs` directory after the parse step -/
  outputsDir : List (FileEntry α)

/-- The batch artifacts: `OUTPUTS_DIR.glob("parsed-results-*.json")`. -/
def batchGlob (env : ScrapeEnv α) : List (FileEntry α) :=
  globFiles "parsed-results-*.json" env.outputsDir

/-- Model of `sorted(files, key=os.path.getmtime, reverse=True)[0]` when the
glob is non-empty: a stable descending sort by mtime puts the first
file of the listing achieving the maximal mtime at the head, which this
fold computes directly. -/
def latestBatch : List (FileEntry α) → Option (FileEntry α)
  | [] => none
  | f :: fs => some (fs.foldl (fun best g => if best.mtime < g.mtime then g else best) f)

/-- The records `scrape_products` derives `sites_scraped` from: the
flattened content of the newest batch artifact when one exists,
otherwise the flattened records of every individual `*-parsed.json`
artifact, and nothing at all when no HTML file was produced. -/
def scrapeAggregated (env : ScrapeEnv α) : List (ParseResult α) :=
  if env.htmlFiles.isEmpty then []
  else
    match latestBatch (batchGlob env) with
    | some f => flattenContent f.content
    | none => loadAll env.outputsDir

/-- Model of `item.get('totalProducts', 0) > 0`. -/
def scrapedOk (r : ParseResult α) : Bool :=
  0 < r.totalProducts.getD 0

/-- The site names contributing to `sites_scraped`, before
deduplication: the site (defaulting to `'unknown'`) of every aggregated
record whose stored `totalProducts` is positive. -/
def sitesScrapedRaw (rs : List (ParseResult α)) : List String :=
  (rs.filter scrapedOk).map rawSite

/-- Response body of a successful `POST /api/scrape`.  The `location`
and `product` echo fields carry no information and are omitted;
`data` is the JSON the handler returns: the newest batch artifact's
content verbatim, or a `batch`-shaped list in the no-HTML and fallback
branches; `total_sites` is absent (`none`) in the no-HTML branch.
`list(set(...))` returns the distinct site names in an unspecified
order; the model uses first-occurrence order (`List.dedup` keeps the
first occurrence of each element). -/
structure ScrapeResponse (α : Type) where
  message : String
  data : ArtifactContent α
  total_sites : Option Nat
  sites_scraped : List String
  deriving Repr

/-- Result of one `scrape_products` request: the log lines printed
while handling it, and the HTTP outcome. -/
structure ScrapeResult (α : Type) where
  logs : List String
  response : Except HTTPError (ScrapeResponse α)

/-- The warning the handler prints when the orchestrator exits
non-zero (`"Unknown error"` stands for an empty stderr, decoded by the
caller into `scrapeStderr`).  The per-file `"Error reading ..."` prints
of the fallback loop are not modelled; nothing depends on them. -/
def scrapeWarnings (env : ScrapeEnv α) : List String :=
  if env.scrapeExit ≠ 0 then
    ["Warning: Scraping had errors: " ++ env.scrapeStderr]
  else []

/-- The HTTP outcome of `scrape_products`: look for HTML files, then
prefer the newest `parsed-results-*.json` batch artifact and fall back
to the individual `*-parsed.json` artifacts.  Reading the chosen batch
artifact is not guarded by a `try`, so a malformed newest batch
artifact raises into the handler's outer `except` and becomes a 500. -/
def scrapeResponse (env : ScrapeEnv α) : Except HTTPError (ScrapeResponse α) :=
  if env.htmlFiles.isEmpty then
    .ok ⟨"Scraping completed but no HTML files found", .batch [], none, []⟩
  else
    match latestBatch (batchGlob env) with
    | some f =>
      match f.content with
      | .malformed => .error (.internalError "Error scraping products")
      | c =>
        let totalSites := match c with
          | .batch rs => rs.length
          | _ => 1
        .ok ⟨"Successfully scraped and parsed products", c,
          some totalSites, (sitesScrapedRaw (flattenContent c)).dedup⟩
    | none =>
      let allData := loadAll env.outputsDir
      .ok ⟨"Successfully scraped and parsed products", .batch allData,
        some allData.length, (sitesScrapedRaw allData).dedup⟩

/-- Handler `scrape_products`: run the orchestrator (a non-zero exit only logs
a warning and the handler proceeds), then produce the response from
whatever artifacts exist. -/
def scrape_products (env : ScrapeEnv α) : ScrapeResult α :=
  ⟨scrapeWarnings env, scrapeResponse env⟩

/-! ## Specification-side definitions

These definitions restate, directly from the claims' words, what the
aggregation is supposed to produce; the theorems below compare them
with the embedded handlers. -/

/-- What one entry of the `sites` mapping is claimed to hold for site
key `s`: nothing when no record has that site key; otherwise the
location of the *first* record with that site, the concatenation of the
product lists of *all* records with that site in order, and the sum of
their lengths. -/
def siteAgg (s : String) (rs : List (ParseResult α)) : Option (SiteGroup α) :=
  match rs.filter (fun r => rawSite r = s) with
  | [] => none
  | r0 :: _ =>
    some ⟨rawLoc r0,
      (rs.filter (fun r => rawSite r = s)).flatMap (fun r => r.products),
      ((rs.filter (fun r => rawSite r = s)).map (fun r => r.products.length)).sum⟩

/-- Did `json.load` succeed on this artifact? -/
def isReadable : ArtifactContent α → Bool
  | .malformed => false
  | _ => true

/-- The union, in directory order, of the products of the readable
artifact files matching `*-parsed.json`. -/
def validProductsUnion (dir : List (FileEntry α)) : List α :=
  ((globFiles "*-parsed.json" dir).filter (fun e => isReadable e.content)).flatMap
    (fun e => (flattenContent e.content).flatMap (fun r => r.products))

/-! ## Concrete fixtures

Small concrete directories and environments, with `Nat` as the opaque
product payload, used by the counterexample/witness theorems. -/

/-- A `dmart` record with two products, located in Mumbai. -/
def dmartMumbai : ParseResult Nat :=
  ⟨some "dmart", some "Mumbai", [1, 2], some 2⟩

/-- An outputs directory holding the single artifact
`dmart-mumbai-parsed.json` (2 products, site `dmart`). -/
def dirDmartOnly : List (FileEntry Nat) :=
  [⟨"dmart-mumbai-parsed.json", 10, .single dmartMumbai⟩]

/-- Two artifacts whose `site` fields differ only in letter case. -/
def dirMixedCase : List (FileEntry Nat) :=
  [⟨"dmart-a-parsed.json", 1, .single ⟨some "Dmart", some "Mumbai", [1], some 1⟩⟩,
   ⟨"dmart-b-parsed.json", 2, .single ⟨some "dmart", some "Pune", [2], some 1⟩⟩]

/-- A directory with one corrupt artifact between two valid ones, plus
a batch artifact carrying a zero-`totalProducts` record with a
non-empty product list (exercising the stored-field reading of
`sites_scraped`). -/
def dirMixed : List (FileEntry Nat) :=
  [⟨"dmart-mumbai-parsed.json", 1, .single dmartMumbai⟩,
   ⟨"broken-parsed.json", 2, .malformed⟩,
   ⟨"zepto-pune-parsed.json", 3, .single ⟨some "zepto", some "Pune", [3, 4, 5], some 3⟩⟩]

/-- A scrape environment with no batch artifact: the handler must fall
back to the individual artifacts of `dirMixed`. -/
def envFallback : ScrapeEnv Nat :=
  ⟨1, "site 3 timed out", ["dmart.html"], 0, dirMixed⟩

/-- The newest batch artifact of `dirWithBatch`; its content has one
record with products but `totalProducts = 0` and one record with an
empty product list but `totalProducts = 2`. -/
def newestBatch : FileEntry Nat :=
  ⟨"parsed-results-20240101.json", 50,
    .batch [⟨some "dmart", some "Mumbai", [7], some 0⟩,
            ⟨some "zepto", some "Pune", [], some 2⟩]⟩

/-- The newest batch artifact, an older batch artifact, and an
individual artifact. -/
def dirWithBatch : List (FileEntry Nat) :=
  [newestBatch,
   ⟨"parsed-results-20230101.json", 20, .batch []⟩,
   ⟨"swiggy-mumbai-parsed.json", 60, .single ⟨some "swiggy", some "Mumbai", [9], some 1⟩⟩]

/-- A scrape environment whose outputs directory holds batch artifacts. -/
def envBatch : ScrapeEnv Nat :=
  ⟨0, "", ["dmart.html"], 0, dirWithBatch⟩

/-! ## Helper lemmas on the aggregation pass -/

/-- Effect of one loop iteration of `get_all_products` on a `sites`
lookup: the entry of the inserted site gains the products, every other
entry is untouched. -/
theorem lookupSite_insertGroup (site loc : String) (ps : List α)
    (acc : List (String × SiteGroup α)) (s : String) :
    lookupSite s (insertGroup site loc ps acc) =
      if site = s then
        match lookupSite s acc with
        | some g => some ⟨g.location, g.products ++ ps, g.total + ps.length⟩
        | none => some ⟨loc, ps, ps.length⟩
      else lookupSite s acc := by
  induction acc with
  | nil =>
    by_cases h : site = s <;> simp [insertGroup, lookupSite, h]
  | cons hd tl ih =>
    obtain ⟨k, g⟩ := hd
    by_cases hk : k = site
    · subst hk
      by_cases hs : k = s <;> simp [insertGroup, lookupSite, hs]
    · by_cases hs : k = s
      · subst hs
        have hks : site ≠ k := fun h => hk h.symm
        simp [insertGroup, lookupSite, hk, hks]
      · simp [insertGroup, lookupSite, hk, hs, ih]

/-- Running the whole aggregation pass from an arbitrary accumulator:
an already-present entry keeps its location and absorbs the matching
records' products, an absent one ends up exactly as `siteAgg`
describes. -/
theorem lookupSite_groupPass (rs : List (ParseResult α))
    (acc : List (String × SiteGroup α)) (s : String) :
    lookupSite s
        (rs.foldl (fun acc r => insertGroup (rawSite r) (rawLoc r) r.products acc) acc) =
      match lookupSite s acc with
      | some g => some ⟨g.location,
          g.products ++ (rs.filter (fun r => rawSite r = s)).flatMap (fun r => r.products),
          g.total + ((rs.filter (fun r => rawSite r = s)).map (fun r => r.products.length)).sum⟩
      | none => siteAgg s rs := by
  induction rs generalizing acc with
  | nil =>
    cases h : lookupSite s acc <;> simp [siteAgg, h]
  | cons r rs ih =>
    rw [List.foldl_cons, ih, lookupSite_insertGroup]
    by_cases hr : rawSite r = s
    · cases h : lookupSite s acc with
      | some g =>
        simp [hr, h, List.filter_cons, List.append_assoc, Nat.add_assoc]
      | none =>
        simp [hr, h, siteAgg, List.filter_cons]
    · cases h : lookupSite s acc <;>
      simp [hr, h, siteAgg, List.filter_cons]

/-- The `sites` mapping of `get_all_products` is `groupBySite` of the
loaded records (also through the empty-glob early return). -/
theorem sitesOf_get_all_products (dir : List (FileEntry α)) :
    sitesOf (get_all_products dir) = groupBySite (loadAll dir) := by
  unfold get_all_products
  split
  · rename_i h
    rw [List.isEmpty_iff] at h
    simp [sitesOf, loadAll, h, groupBySite]
  · rfl

/-- The `all_products` list of `get_all_products` is the concatenation
of the loaded records' product lists (also through the early return). -/
theorem allProductsOf_get_all_products (dir : List (FileEntry α)) :
    allProductsOf (get_all_products dir) = (loadAll dir).flatMap (fun r => r.products) := by
  unfold get_all_products
  split
  · rename_i h
    rw [List.isEmpty_iff] at h
    simp [allProductsOf, loadAll, h]
  · rfl

/-- The `total_products` field of `get_all_products` is the length of
`all_products` (also through the early return). -/
theorem totalProductsOf_get_all_products (dir : List (FileEntry α)) :
    totalProductsOf (get_all_products dir) = (allProductsOf (get_all_products dir)).length := by
  unfold get_all_products
  split <;> rfl

/-- Dropping list elements on which a flat-map is empty does not
change the flat-map. -/
theorem flatMap_filter_of_nil (l : List β) (p : β → Bool) (f : β → List γ)
    (hf : ∀ b, p b = false → f b = []) :
    (l.filter p).flatMap f = l.flatMap f := by
  induction l with
  | nil => rfl
  | cons b l ih =>
    cases hp : p b with
    | true => simp [List.filter_cons, hp, ih]
    | false => simp [List.filter_cons, hp, ih, hf b hp]

/-- Unreadable artifacts contribute no products, so flattening the
readable files only is flattening them all. -/
theorem flatten_filter_readable (l : List (FileEntry α)) :
    ((l.filter (fun e => isReadable e.content)).flatMap
        (fun e => (flattenContent e.content).flatMap (fun r => r.products))) =
      (l.flatMap (fun e => flattenContent e.content)).flatMap (fun r => r.products) := by
  rw [List.flatMap_assoc l (fun e => flattenContent e.content) (fun r => r.products)]
  exact flatMap_filter_of_nil l _ _ (fun e he => by
    cases h : e.content <;> simp [isReadable, h, flattenContent] at he ⊢)

/-- The result of the mtime fold backing `latestBatch` is one of the
candidates and its mtime dominates all of them. -/
theorem foldl_mtime_spec (fs : List (FileEntry α)) (f : FileEntry α) :
    (fs.foldl (fun best g => if best.mtime < g.mtime then g else best) f) ∈ f :: fs ∧
    f.mtime ≤ (fs.foldl (fun best g => if best.mtime < g.mtime then g else best) f).mtime ∧
    ∀ g ∈ fs, g.mtime ≤ (fs.foldl (fun best g => if best.mtime < g.mtime then g else best) f).mtime := by
  induction fs generalizing f with
  | nil => simp
  | cons g fs ih =>
    rw [List.foldl_cons]
    obtain ⟨h1, h2, h3⟩ := ih (if f.mtime < g.mtime then g else f)
    have hle : f.mtime ≤ (if f.mtime < g.mtime then g else f).mtime := by
      split <;> omega
    have hgle : g.mtime ≤ (if f.mtime < g.mtime then g else f).mtime := by
      split <;> omega
    refine ⟨?_, le_trans hle h2, ?_⟩
    · rcases List.mem_cons.mp h1 with h | h
      · rw [h]
        split <;> simp
      · simp [h]
    · intro g' hg'
      rcases List.mem_cons.mp hg' with h | h
      · rw [h]
        exact le_trans hgle h2
      · exact h3 g' h

/-- Function `latestBatch` returns a member of the list whose mtime is maximal. -/
theorem latestBatch_spec (l : List (FileEntry α)) (f : FileEntry α)
    (h : latestBatch l = some f) :
    f ∈ l ∧ ∀ g ∈ l, g.mtime ≤ f.mtime := by
  cases l with
  | nil => exact absurd h (by simp [latestBatch])
  | cons a l =>
    obtain ⟨h1, h2, h3⟩ := foldl_mtime_spec l a
    have hf : l.foldl (fun best g => if best.mtime < g.mtime then g else best) a = f := by
      simpa [latestBatch] using h
    rw [hf] at h1 h2 h3
    exact ⟨h1, by
      intro g hg
      rcases List.mem_cons.mp hg with hga | hgl
      · exact hga ▸ h2
      · exact h3 g hgl⟩

/-- Function `latestBatch` signals `none` exactly when no batch artifact exists. -/
theorem latestBatch_eq_none_iff (l : List (FileEntry α)) :
    latestBatch l = none ↔ l = [] := by
  cases l <;> simp [latestBatch]

/-! ## The claims -/

/-- C1: false on the code.  With the single artifact
`dmart-mumbai-parsed.json` (2 products, site `dmart`) in the outputs
directory, `GET /products/dmart` does *not* count the file once: the
file matches both discovery patterns `dmart*-parsed.json` and
`*dmart*-parsed.json`, so it occurs twice in the discovered list and
the handler returns `total_products = 4` (each product duplicated),
not the claimed `total_products = 2`; `total_locations = 1` does hold. -/
theorem claim1_single_artifact_counted_twice :
    siteGlobFiles "dmart" dirDmartOnly = dirDmartOnly ++ dirDmartOnly ∧
    get_products_by_site "dmart" dirDmartOnly =
      .ok (.success "dmart" [("Mumbai", [1, 2, 1, 2])] [1, 2, 1, 2] 4 1) :=
  ⟨rfl, rfl⟩

/-- C2: for every outputs directory, `total_products` of
`GET /products` is the sum of `len(products)` over all loaded records,
and the per-site `total` of the `sites` mapping is the sum of
`len(products)` over the records whose site key equals that site,
however many files they came from. -/
theorem claim2_per_site_totals (dir : List (FileEntry α)) :
    totalProductsOf (get_all_products dir) =
      ((loadAll dir).map (fun r => r.products.length)).sum ∧
    ∀ s g, lookupSite s (sitesOf (get_all_products dir)) = some g →
      g.total = (((loadAll dir).filter (fun r => rawSite r = s)).map
        (fun r => r.products.length)).sum := by
  constructor
  · rw [totalProductsOf_get_all_products, allProductsOf_get_all_products,
      List.length_flatMap]
    rfl
  · intro s g hg
    rw [sitesOf_get_all_products] at hg
    unfold groupBySite at hg
    rw [lookupSite_groupPass] at hg
    change siteAgg s (loadAll dir) = some g at hg
    unfold siteAgg at hg
    split at hg
    · exact absurd hg (by simp)
    · injection hg with hg
      rw [← hg]

/-- C2 witness: the two readable artifacts of `dirMixed` hold 2 + 3
products, and the `dmart` entry's total is the sum over the records
with site key `dmart`. -/
theorem claim2_per_site_totals_witness :
    totalProductsOf (get_all_products dirMixed) = 5 ∧
    (⟨"Mumbai", [1, 2], 2⟩ : SiteGroup Nat).total =
      (((loadAll dirMixed).filter (fun r => rawSite r = "dmart")).map
        (fun r => r.products.length)).sum := by
  constructor
  · rw [(claim2_per_site_totals dirMixed).1]
    rfl
  · exact (claim2_per_site_totals dirMixed).2 "dmart" ⟨"Mumbai", [1, 2], 2⟩ (by rfl)

/-- C4: aggregation tolerates malformed artifacts: for every outputs
directory, `GET /products` returns exactly the union of the readable
artifacts' products (a corrupt file is skipped, never aborting the
load), and `total_products` counts that union. -/
theorem claim4_tolerant_aggregation (dir : List (FileEntry α)) :
    allProductsOf (get_all_products dir) = validProductsUnion dir ∧
    totalProductsOf (get_all_products dir) = (validProductsUnion dir).length := by
  have h : allProductsOf (get_all_products dir) = validProductsUnion dir := by
    rw [allProductsOf_get_all_products]
    unfold loadAll validProductsUnion
    rw [← flatten_filter_readable]
  exact ⟨h, by rw [totalProductsOf_get_all_products, h]⟩

/-- C9: in the `sites` mapping of `GET /products`, each site's entry
holds the location of the *first* loaded record with that site and the
products of *all* loaded records with that site, concatenated in
order of the single pass (`siteAgg` states exactly that). -/
theorem claim9_first_seen_location (dir : List (FileEntry α)) (s : String) :
    lookupSite s (sitesOf (get_all_products dir)) = siteAgg s (loadAll dir) := by
  rw [sitesOf_get_all_products]
  unfold groupBySite
  rw [lookupSite_groupPass]
  rfl

/-- C3: `GET /products/{site}/{location}` keeps a record exactly when
it comes from a discovered file, its lower-cased `site` field equals
the lower-cased query site, and the lower-cased query location is a
substring of its lower-cased `location` field (records failing either
condition are dropped); in particular `"Mumbai - Andheri West"`
matches the query location `"andheri"`. -/
theorem claim3_site_location_filter :
    (∀ (α : Type) (dir : List (FileEntry α)) (qsite qloc : String) (r : ParseResult α),
      r ∈ matchingResults (strLower qsite) (strLower qloc) dir ↔
        ((∃ e ∈ siteGlobFiles (strLower qsite) dir, r ∈ flattenContent e.content) ∧
          strLower (r.site.getD "") = strLower qsite ∧
          strContains (strLower (r.location.getD "")) (strLower qloc) = true)) ∧
    strContains (strLower "Mumbai - Andheri West") (strLower "andheri") = true := by
  refine ⟨?_, by decide⟩
  intro α dir qsite qloc r
  unfold matchingResults
  simp only [List.mem_flatMap, List.mem_filter, Bool.and_eq_true, decide_eq_true_eq]
  constructor
  · rintro ⟨e, he, hr, hsite, hloc⟩
    exact ⟨⟨e, he, hr⟩, hsite, hloc⟩
  · rintro ⟨⟨e, he, hr⟩, hsite, hloc⟩
    exact ⟨e, he, hr, hsite, hloc⟩

/-- C5: both site-scoped endpoints accept a site argument exactly when
its lower-casing is one of the five supported sites, independent of
the artifacts; otherwise they return the 400 validation error. -/
theorem claim5_unknown_site_validation (α : Type) (site loc : String)
    (dir : List (FileEntry α)) :
    ((get_products_by_site site dir).isOk = true ↔ strLower site ∈ SUPPORTED_SITES) ∧
    (get_products_by_site site dir =
        .error (.badRequest (unsupportedDetail (strLower site))) ↔
      strLower site ∉ SUPPORTED_SITES) ∧
    ((get_products_by_site_and_location site loc dir).isOk = true ↔
      strLower site ∈ SUPPORTED_SITES) ∧
    (get_products_by_site_and_location site loc dir =
        .error (.badRequest (unsupportedDetail (strLower site))) ↔
      strLower site ∉ SUPPORTED_SITES) := by
  by_cases h : strLower site ∈ SUPPORTED_SITES
  · have h1 : (get_products_by_site site dir).isOk = true := by
      simp only [get_products_by_site]
      rw [if_pos h]
      split
      · rfl
      · split <;> rfl
    have h2 : (get_products_by_site_and_location site loc dir).isOk = true := by
      simp only [get_products_by_site_and_location]
      rw [if_pos h]
      split
      · rfl
      · split <;> rfl
    refine ⟨by simp [h1, h], ⟨fun he => ?_, fun hn => absurd h hn⟩,
      by simp [h2, h], ⟨fun he => ?_, fun hn => absurd h hn⟩⟩
    · rw [he] at h1
      simp [Except.isOk, Except.toBool] at h1
    · rw [he] at h2
      simp [Except.isOk, Except.toBool] at h2
  · have e1 : get_products_by_site site dir =
        .error (.badRequest (unsupportedDetail (strLower site))) := by
      simp only [get_products_by_site]
      rw [if_neg h]
    have e2 : get_products_by_site_and_location site loc dir =
        .error (.badRequest (unsupportedDetail (strLower site))) := by
      simp only [get_products_by_site_and_location]
      rw [if_neg h]
    refine ⟨?_, ?_, ?_, ?_⟩ <;> simp [e1, e2, h, Except.isOk, Except.toBool]

/-- C10: `GET /products` groups by the raw site string: two artifacts
whose `site` fields are `"Dmart"` and `"dmart"` produce two distinct
entries in the `sites` mapping and `total_sites = 2`. -/
theorem claim10_raw_site_grouping :
    get_all_products dirMixedCase =
      .success [("Dmart", ⟨"Mumbai", [1], 1⟩), ("dmart", ⟨"Pune", [2], 1⟩)]
        [1, 2] 2 2 :=
  rfl

/-- C6: `POST /scrape` never 500s merely because the orchestrator
exited non-zero: the HTTP outcome is identical for every exit code, a
non-zero exit adds only a logged warning, and whenever the newest
batch artifact (if any) is readable the outcome is a success (the only
500 of the handler is the unexpected failure of reading a malformed
newest batch artifact). -/
theorem claim6_scrape_exit_nonfatal (env : ScrapeEnv α) (c : Int) (hc : c ≠ 0) :
    (scrape_products {env with scrapeExit := c}).response =
      (scrape_products {env with scrapeExit := 0}).response ∧
    (scrape_products {env with scrapeExit := c}).logs =
      ["Warning: Scraping had errors: " ++ env.scrapeStderr] ∧
    ((∀ f, latestBatch (batchGlob env) = some f → f.content ≠ .malformed) →
      ((scrape_products {env with scrapeExit := c}).response).isOk = true) := by
  obtain ⟨e0, st, html, pe, out⟩ := env
  refine ⟨rfl, ?_, ?_⟩
  · simp [scrape_products, scrapeWarnings, hc]
  · intro hsafe
    show (scrapeResponse ⟨c, st, html, pe, out⟩).isOk = true
    simp only [batchGlob] at hsafe
    unfold scrapeResponse
    simp only [batchGlob]
    split
    · rfl
    · rcases hb : latestBatch (globFiles "parsed-results-*.json" out) with _ | f
      · simp [hb, Except.isOk, Except.toBool]
      · have hne := hsafe f hb
        cases hfc : f.content with
        | single r => simp [hb, hfc, Except.isOk, Except.toBool]
        | batch rs => simp [hb, hfc, Except.isOk, Except.toBool]
        | malformed => exact absurd hfc hne

/-- C6 witness: with the orchestrator exiting 1 in `envFallback`, the
response equals the exit-0 response, the warning is logged, and the
request succeeds. -/
theorem claim6_scrape_exit_nonfatal_witness :
    (scrape_products {envFallback with scrapeExit := 1}).response =
      (scrape_products {envFallback with scrapeExit := 0}).response ∧
    (scrape_products {envFallback with scrapeExit := 1}).logs =
      ["Warning: Scraping had errors: site 3 timed out"] ∧
    ((scrape_products {envFallback with scrapeExit := 1}).response).isOk = true := by
  have h := claim6_scrape_exit_nonfatal envFallback 1 (by decide)
  exact ⟨h.1, h.2.1, h.2.2 (fun f hf => Option.noConfusion hf)⟩

/-- C7: after a scrape with HTML present, the response data is the
content of the `parsed-results-*.json` artifact of greatest mtime when
one exists; only when no batch artifact exists does the handler fall
back to the union of the individual `*-parsed.json` artifacts. -/
theorem claim7_batch_resolution_order (env : ScrapeEnv α)
    (hhtml : env.htmlFiles.isEmpty = false) :
    (∀ f, latestBatch (batchGlob env) = some f → f.content ≠ .malformed →
      f ∈ batchGlob env ∧ (∀ g ∈ batchGlob env, g.mtime ≤ f.mtime) ∧
      ∃ resp, (scrape_products env).response = .ok resp ∧ resp.data = f.content) ∧
    (latestBatch (batchGlob env) = none →
      batchGlob env = [] ∧
      ∃ resp, (scrape_products env).response = .ok resp ∧
        resp.data = .batch (loadAll env.outputsDir)) := by
  constructor
  · intro f hb hm
    obtain ⟨hmem, hmax⟩ := latestBatch_spec _ f hb
    refine ⟨hmem, hmax, ?_⟩
    show ∃ resp, scrapeResponse env = .ok resp ∧ resp.data = f.content
    unfold scrapeResponse
    cases hfc : f.content with
    | single r => simp [hhtml, hb, hfc]
    | batch rs => simp [hhtml, hb, hfc]
    | malformed => exact absurd hfc hm
  · intro hb
    refine ⟨(latestBatch_eq_none_iff _).mp hb, ?_⟩
    show ∃ resp, scrapeResponse env = .ok resp ∧
      resp.data = .batch (loadAll env.outputsDir)
    unfold scrapeResponse
    simp [hhtml, hb]

/-- C7 witness: in `envBatch` the newest batch artifact (mtime 50)
wins over the older batch artifact (mtime 20) and the response data is
its content, not the per-file union. -/
theorem claim7_batch_resolution_order_witness :
    newestBatch ∈ batchGlob envBatch ∧
    (∀ g ∈ batchGlob envBatch, g.mtime ≤ newestBatch.mtime) ∧
    ∃ resp, (scrape_products envBatch).response = .ok resp ∧
      resp.data = newestBatch.content :=
  (claim7_batch_resolution_order envBatch rfl).1 newestBatch rfl (by decide)

/-- C8: in every successful `POST /scrape` response, `sites_scraped`
is duplicate-free and contains a site name exactly when some
aggregated record carries that site name with stored
`totalProducts > 0`; the length of the `products` list plays no role. -/
theorem claim8_sites_scraped (env : ScrapeEnv α) (resp : ScrapeResponse α)
    (h : (scrape_products env).response = .ok resp) :
    resp.sites_scraped.Nodup ∧
    ∀ s, s ∈ resp.sites_scraped ↔
      ∃ r ∈ scrapeAggregated env, scrapedOk r = true ∧ rawSite r = s := by
  have hmem : ∀ (rs : List (ParseResult α)) (s : String),
      s ∈ (sitesScrapedRaw rs).dedup ↔
        ∃ r ∈ rs, scrapedOk r = true ∧ rawSite r = s := by
    intro rs s
    simp only [List.mem_dedup, sitesScrapedRaw, List.mem_map, List.mem_filter]
    constructor
    · rintro ⟨r, ⟨hr, hok⟩, hs⟩
      exact ⟨r, hr, hok, hs⟩
    · rintro ⟨r, hr, hok, hs⟩
      exact ⟨r, ⟨hr, hok⟩, hs⟩
  have hresp : scrapeResponse env = .ok resp := h
  unfold scrapeResponse at hresp
  unfold scrapeAggregated
  split at hresp
  · rename_i hempty
    injection hresp with hresp
    rw [← hresp]
    simp only [hempty, if_pos]
    exact ⟨by simp, by simp⟩
  · rename_i hempty
    rw [if_neg hempty]
    split at hresp
    · rename_i f hb
      cases hfc : f.content with
      | single r =>
        rw [hfc] at hresp
        injection hresp with hresp
        rw [← hresp]
        exact ⟨List.nodup_dedup _, fun s => hmem _ s⟩
      | batch rs =>
        rw [hfc] at hresp
        injection hresp with hresp
        rw [← hresp]
        exact ⟨List.nodup_dedup _, fun s => hmem _ s⟩
      | malformed =>
        rw [hfc] at hresp
        exact absurd hresp (by simp)
    · injection hresp with hresp
      rw [← hresp]
      exact ⟨List.nodup_dedup _, fun s => hmem _ s⟩

/-- C8 witness: in `envBatch`'s response, the `dmart` record (one
product but stored `totalProducts = 0`) contributes nothing while the
`zepto` record (empty product list but stored `totalProducts = 2`)
does, and the list is duplicate-free. -/
theorem claim8_sites_scraped_witness :
    ∃ resp, (scrape_products envBatch).response = .ok resp ∧
      resp.sites_scraped = ["zepto"] ∧ resp.sites_scraped.Nodup := by
  refine ⟨⟨"Successfully scraped and parsed products", newestBatch.content,
    some 2, ["zepto"]⟩, rfl, rfl, ?_⟩
  exact (claim8_sites_scraped envBatch _ rfl).1

end ApiServer
